import Mathlib

/-
  Verification of the cognitive scoring engine of the Nura-Report backend.

  The definitions below are shallow embeddings of the Python scoring code:
  - app/calculation/attention.py
  - app/calculation/memory.py
  - app/services/cognitive_assessment_service.py

  Python floats are modelled by exact rationals (ℚ) where the code is purely
  arithmetic, and by reals (ℝ) where irrational functions (sqrt, erf) occur.
  Python's round(x, n) (round half to even) is modelled exactly by rhe/roundTo
  below.  Python expressions that can raise ZeroDivisionError are modelled in
  an Except monad.
-/

namespace NuraReport

/-- Round half to even on ℚ (Python's round to nearest integer). -/
def rhe (x : ℚ) : ℤ :=
  if Int.fract x < 1/2 then ⌊x⌋
  else if 1/2 < Int.fract x then ⌊x⌋ + 1
  else if ⌊x⌋ % 2 = 0 then ⌊x⌋ else ⌊x⌋ + 1

/-- Python's round(x, n) on ℚ. -/
def roundTo (n : ℕ) (x : ℚ) : ℚ := (rhe (x * 10 ^ n) : ℚ) / 10 ^ n

/-- Round half to even on ℝ (Python's round to nearest integer). -/
noncomputable def rheR (x : ℝ) : ℤ :=
  if Int.fract x < 1/2 then ⌊x⌋
  else if 1/2 < Int.fract x then ⌊x⌋ + 1
  else if ⌊x⌋ % 2 = 0 then ⌊x⌋ else ⌊x⌋ + 1

/-- Python's round(x, n) on ℝ. -/
noncomputable def roundToR (n : ℕ) (x : ℝ) : ℝ := (rheR (x * 10 ^ n) : ℝ) / 10 ^ n

/-- Sample standard deviation of a list (Python's statistics.stdev). -/
noncomputable def stdev (xs : List ℝ) : ℝ :=
  let n : ℝ := xs.length
  let m : ℝ := xs.sum / n
  Real.sqrt ((xs.map (fun x => (x - m) ^ 2)).sum / (n - 1))

/-- Embedding of attention.py, compute_crop_attention_score.
The response_times dict is modelled as its key/value list. -/
noncomputable def compute_crop_attention_score
    (crops_identified omission_errors : ℕ) (response_times : List (String × ℝ))
    (distractions total_crops_presented : ℕ) (age_group : Option String) : ℝ :=
  let response_time_values := response_times.map Prod.snd
  if response_time_values = [] ∨ total_crops_presented = 0 then 0
  else
    let total_attempts := crops_identified + omission_errors
    let max_acceptable_sd : ℝ :=
      if age_group = some "5-7" then 700
      else if age_group = some "8-10" then 600
      else if age_group = some "11-13" then 500
      else if age_group = some "14-16" then 400
      else 500
    let attention_part : ℝ :=
      if 0 < total_attempts then (crops_identified : ℝ) / (total_attempts : ℝ) else 0
    let distraction_part : ℝ :=
      if 0 < total_crops_presented then
        1 - (distractions : ℝ) / (total_crops_presented : ℝ)
      else 0
    let consistency_part : ℝ :=
      if 1 < response_time_values.length then
        max 0 (min 1 (1 - stdev response_time_values / max_acceptable_sd))
      else 1/2
    roundToR 2 (70 * attention_part + 20 * distraction_part + 10 * consistency_part)

/-- Embedding of attention.py, compute_sequence_attention_score.
The one division of the source whose denominator is not guarded
(expected_retention / avg_retention) is modelled in Except, mirroring
Python's ZeroDivisionError. -/
def compute_sequence_attention_score
    (sequence_length expected_max_sequence commission_errors total_sequence_elements : ℕ)
    (retention_times : Option (List ℕ)) (age_group : Option String) :
    Except String ℚ :=
  if total_sequence_elements = 0 then .ok 0
  else
    let ems : ℕ :=
      if age_group = some "5-7" then 5
      else if age_group = some "8-10" then 6
      else if age_group = some "11-13" then 7
      else if age_group = some "14-16" then 8
      else expected_max_sequence
    let sequence_part : ℚ :=
      if 0 < ems then (sequence_length : ℚ) / (ems : ℚ) else 0
    let sequence_part : ℚ := min 1 sequence_part
    let error_part : ℚ :=
      if 0 < total_sequence_elements then
        1 - (commission_errors : ℚ) / (total_sequence_elements : ℚ)
      else 0
    match retention_times with
    | some (t :: ts) =>
      let rts := t :: ts
      let avg_retention : ℚ := ((rts.map (fun k => (k : ℚ))).sum) / (rts.length : ℚ)
      let expected_retention : ℚ :=
        if age_group = some "5-7" then 1500
        else if age_group = some "8-10" then 1200
        else if age_group = some "11-13" then 1000
        else if age_group = some "14-16" then 800
        else 1000
      if avg_retention = 0 then .error "ZeroDivisionError"
      else
        let efficiency_part : ℚ := max 0 (min 1 (expected_retention / avg_retention))
        .ok (roundTo 2 (50 * sequence_part + 30 * error_part + 20 * efficiency_part))
    | _ => .ok (roundTo 2 (60 * sequence_part + 40 * error_part))

/-- Embedding of attention.py, compute_overall_attention_score. -/
noncomputable def compute_overall_attention_score
    (crop_score sequence_score : Option ℝ) : Option ℝ :=
  match crop_score, sequence_score with
  | some c, some s => some (roundToR 2 (0.6 * c + 0.4 * s))
  | some c, none => some (roundToR 2 c)
  | none, some s => some (roundToR 2 s)
  | none, none => none

/-- Result record of cognitive_assessment_service.py, compute_executive_function_score. -/
structure ExecutiveFunctionResult where
  executive_function_score : ℚ
  memory_contribution : Option ℚ
  impulse_contribution : Option ℚ
  attention_contribution : Option ℚ
  profile_pattern : String
  deriving Repr, DecidableEq

/-- Profile-pattern branch of compute_executive_function_score (only reached when
both memory_score and impulse_score are present). -/
def profilePattern (memory_score impulse_score : ℚ) : String :=
  if 75 ≤ memory_score ∧ impulse_score < 65 then
    "Memory strength with impulse control challenges"
  else if 75 ≤ impulse_score ∧ memory_score < 65 then
    "Impulse control strength with memory challenges"
  else if 75 ≤ memory_score ∧ 75 ≤ impulse_score then
    "Strong executive function profile"
  else if memory_score < 65 ∧ impulse_score < 65 then
    "Executive function challenges"
  else "Mixed executive function profile"

/-- Core of compute_executive_function_score once the applicable weights are
chosen: sum of contributions, defensively normalized by the total weight. -/
def execScore (contributions weights : List ℚ) : ℚ :=
  let executive_score := contributions.sum
  let total_weight := weights.sum
  if 0 < total_weight then executive_score / total_weight else executive_score

/-- Embedding of cognitive_assessment_service.py, compute_executive_function_score.
The if/elif chain over which scores are None becomes a match on the three options;
the ValueError raised when all three are None becomes Except.error. -/
def compute_executive_function_score
    (memory_score impulse_score attention_score : Option ℚ) :
    Except String ExecutiveFunctionResult :=
  match memory_score, impulse_score, attention_score with
  | some m, some i, some a =>
    let mc := 0.4 * m
    let ic := 0.35 * i
    let ac := 0.25 * a
    .ok ⟨roundTo 1 (execScore [mc, ic, ac] [0.4, 0.35, 0.25]), some (roundTo 1 mc), some (roundTo 1 ic),
         some (roundTo 1 ac), profilePattern m i⟩
  | some m, some i, none =>
    let mc := 0.55 * m
    let ic := 0.45 * i
    .ok ⟨roundTo 1 (execScore [mc, ic] [0.55, 0.45]), some (roundTo 1 mc), some (roundTo 1 ic),
         none, profilePattern m i⟩
  | some m, none, some a =>
    let mc := 0.6 * m
    let ac := 0.4 * a
    .ok ⟨roundTo 1 (execScore [mc, ac] [0.6, 0.4]), some (roundTo 1 mc), none, some (roundTo 1 ac),
         "Insufficient data for full profile pattern"⟩
  | none, some i, some a =>
    let ic := 0.55 * i
    let ac := 0.45 * a
    .ok ⟨roundTo 1 (execScore [ic, ac] [0.55, 0.45]), none, some (roundTo 1 ic), some (roundTo 1 ac),
         "Insufficient data for full profile pattern"⟩
  | some m, none, none =>
    let mc := 1.0 * m
    .ok ⟨roundTo 1 (execScore [mc] [1.0]), some (roundTo 1 mc), none, none,
         "Insufficient data for full profile pattern"⟩
  | none, some i, none =>
    let ic := 1.0 * i
    .ok ⟨roundTo 1 (execScore [ic] [1.0]), none, some (roundTo 1 ic), none,
         "Insufficient data for full profile pattern"⟩
  | none, none, some a =>
    let ac := 1.0 * a
    .ok ⟨roundTo 1 (execScore [ac] [1.0]), none, none, some (roundTo 1 ac),
         "Insufficient data for full profile pattern"⟩
  | none, none, none =>
    .error "At least one score must be provided to compute executive function."

/-- memory.py: expected_max_sequence after the age_adjustments table
(default 9 when no age group or an unknown one is given). -/
def expected_max_sequence_for (age_group : Option String) : ℕ :=
  match age_group with
  | some "5-7" => 5
  | some "8-10" => 6
  | some "11-13" => 7
  | some "14-16" => 8
  | some "adult" => 9
  | some _ => 9
  | none => 9

/-- memory.py: optimal_ranges.get(age_group, (1200, 3500)). -/
def optimal_range_for (age_group : Option String) : ℝ × ℝ :=
  match age_group with
  | some "5-7" => (2000, 5000)
  | some "8-10" => (1500, 4000)
  | some "11-13" => (1200, 3500)
  | some "14-16" => (1000, 3000)
  | some "adult" => (800, 2500)
  | _ => (1200, 3500)

/-- memory.py: expected_matches after the age_adjustments table (default 15). -/
def expected_matches_for (age_group : Option String) : ℕ :=
  match age_group with
  | some "5-7" => 10
  | some "8-10" => 12
  | some "11-13" => 15
  | some "14-16" => 18
  | some "adult" => 20
  | some _ => 15
  | none => 15

structure WorkingMemoryComponents where
  span_capacity : ℝ
  accuracy : ℝ
  efficiency : ℝ
  processing_speed : ℝ

structure VisualMemoryComponents where
  recognition_accuracy : ℝ
  recognition_efficiency : ℝ
  memory_load : ℝ

/-- The components dict of compute_memory_score; a key that is absent from the
Python dict is modelled as none. -/
structure MemoryComponents where
  working_memory : Option ℝ
  visual_memory : Option ℝ
  working_memory_components : Option WorkingMemoryComponents
  visual_memory_components : Option VisualMemoryComponents

structure MemoryScoreResult where
  overall_memory_score : ℝ
  components : MemoryComponents
  tasks_used : List String
  data_completeness : ℝ

/-- Embedding of memory.py, compute_memory_score.  retention_times and
time_per_match arrive as plain lists (the source replaces None by []). -/
noncomputable def compute_memory_score
    (sequence_length commission_errors num_of_trials : ℕ)
    (retention_times : List ℝ) (total_sequence_elements : ℕ)
    (correct_matches incorrect_matches matches_attempted : ℕ)
    (time_per_match : List ℝ) (age_group : Option String) : MemoryScoreResult :=
  let working : Option (ℝ × WorkingMemoryComponents) :=
    if 0 < sequence_length ∨ 0 < total_sequence_elements then
      let expected_max_sequence := expected_max_sequence_for age_group
      let span_capacity :=
        min ((sequence_length : ℝ) / (expected_max_sequence : ℝ)) 1 * 100
      let accuracy :=
        if 0 < total_sequence_elements then
          max 0 (1 - (commission_errors : ℝ) / (total_sequence_elements : ℝ)) * 100
        else 0
      let efficiency :=
        if 0 < sequence_length then
          min ((sequence_length : ℝ) / ((max num_of_trials 1 : ℕ) : ℝ)) 1 * 100
        else 0
      let processing_speed :=
        if 1 < retention_times.length then
          let mean_rt := retention_times.sum / (retention_times.length : ℝ)
          if 0 < mean_rt then
            max 0 (min 1 ((0.5 - stdev retention_times / mean_rt) / 0.3)) * 100
          else 0
        else 50
      let working_memory_score :=
        0.40 * span_capacity + 0.30 * accuracy + 0.20 * efficiency +
          0.10 * processing_speed
      some (working_memory_score,
        ⟨roundToR 1 span_capacity, roundToR 1 accuracy, roundToR 1 efficiency,
         roundToR 1 processing_speed⟩)
    else none
  let visual : Option (ℝ × VisualMemoryComponents) :=
    if 0 < matches_attempted then
      let recognition_accuracy :=
        (correct_matches : ℝ) / (matches_attempted : ℝ) * 100
      let recognition_efficiency :=
        match time_per_match with
        | [] => 50
        | _ =>
          let avg_time := time_per_match.sum / (time_per_match.length : ℝ)
          let optimal_range := optimal_range_for age_group
          if avg_time < optimal_range.1 then avg_time / optimal_range.1 * 100
          else if optimal_range.2 < avg_time then
            max 0 (1 - (avg_time - optimal_range.2) / optimal_range.2) * 100
          else 100
      let memory_load :=
        min ((matches_attempted : ℝ) / ((expected_matches_for age_group : ℕ) : ℝ)) 1 * 100
      let visual_memory_score :=
        0.50 * recognition_accuracy + 0.30 * recognition_efficiency +
          0.20 * memory_load
      some (visual_memory_score,
        ⟨roundToR 1 recognition_accuracy, roundToR 1 recognition_efficiency,
         roundToR 1 memory_load⟩)
    else none
  match working, visual with
  | some (w, wc), some (v, vc) =>
    ⟨roundToR 1 (0.60 * w + 0.40 * v),
     ⟨some (roundToR 1 w), some (roundToR 1 v), some wc, some vc⟩,
     ["sequence", "matching"], 2/2⟩
  | some (w, wc), none =>
    ⟨roundToR 1 w, ⟨some (roundToR 1 w), none, some wc, none⟩, ["sequence"], 1/2⟩
  | none, some (v, vc) =>
    ⟨roundToR 1 v, ⟨none, some (roundToR 1 v), none, some vc⟩, ["matching"], 1/2⟩
  | none, none => ⟨0, ⟨none, none, none, none⟩, [], 0⟩

/-- The Gauss error function, as computed by Python's math.erf. -/
noncomputable def erf (x : ℝ) : ℝ :=
  2 / Real.sqrt Real.pi * ∫ t in (0:ℝ)..x, Real.exp (-t ^ 2)

/-- cognitive_assessment_service.py line 340: percentile from a z-score,
100 * (0.5 * (1 + erf(z / sqrt 2))). -/
noncomputable def percentile_of_z (z : ℝ) : ℝ :=
  100 * (0.5 * (1 + erf (z / Real.sqrt 2)))

structure ComparisonResult where
  z_score : ℝ
  percentile : ℝ
  classification : String

/-- Embedding of cognitive_assessment_service.py, compare_to_normative_data,
after the reference lookup: mean and std are the reference statistics resolved
by the external normative-data collaborator (or its hardcoded defaults). -/
noncomputable def compare_to_normative_data (score mean std : ℝ) : ComparisonResult :=
  let z_score := if 0 < std then (score - mean) / std else 0
  let percentile := percentile_of_z z_score
  let classification :=
    if 98 ≤ percentile then "Very Superior"
    else if 91 ≤ percentile then "Superior"
    else if 75 ≤ percentile then "High Average"
    else if 25 ≤ percentile then "Average"
    else if 9 ≤ percentile then "Low Average"
    else if 2 ≤ percentile then "Borderline"
    else "Extremely Low"
  ⟨roundToR 2 z_score, roundToR 1 percentile, classification⟩

/-- Stored SequenceMemoryMetrics row, as extracted by the orchestrator. -/
structure SequenceMemoryMetricsRow where
  sequence_length : ℕ
  commission_errors : ℕ
  num_of_trials : ℕ
  retention_times : List ℕ
  total_sequence_elements : ℕ

/-- Stored CropRecognitionMetrics row, as extracted by the orchestrator. -/
structure CropRecognitionMetricsRow where
  crops_identified : ℕ
  omission_errors : ℕ
  distractions : ℕ
  total_crops_presented : ℕ
  response_times : List (String × ℝ)

/-- Embedding of the attention part of calculate_and_save_cognitive_assessment
(cognitive_assessment_service.py lines 101-120): a game with no stored metrics
row contributes the plain number 0, and both numbers are then passed (non-None)
to compute_overall_attention_score.  Returns (crop_score, sequence_score,
overall_attention_score); an exception escaping a normalizer propagates. -/
noncomputable def attention_scores_for_session
    (crop_metrics : Option CropRecognitionMetricsRow)
    (sequence_metrics : Option SequenceMemoryMetricsRow)
    (age_group : Option String) : Except String (ℝ × ℝ × Option ℝ) :=
  let crop_score : ℝ :=
    match crop_metrics with
    | some c =>
      compute_crop_attention_score c.crops_identified c.omission_errors
        c.response_times c.distractions c.total_crops_presented age_group
    | none => 0
  match sequence_metrics with
  | some s =>
    match compute_sequence_attention_score s.sequence_length
        s.total_sequence_elements s.commission_errors s.total_sequence_elements
        (some s.retention_times) age_group with
    | .error e => .error e
    | .ok q =>
      let sequence_score : ℝ := (q : ℝ)
      .ok (crop_score, sequence_score,
        compute_overall_attention_score (some crop_score) (some sequence_score))
  | none =>
    let sequence_score : ℝ := 0
    .ok (crop_score, sequence_score,
      compute_overall_attention_score (some crop_score) (some sequence_score))

lemma rheR_ratCast (q : ℚ) : rheR (q : ℝ) = rhe q := by
  have hfloor : ⌊(q : ℝ)⌋ = ⌊q⌋ := Rat.floor_cast q
  have hfract : Int.fract ((q : ℝ)) = ((Int.fract q : ℚ) : ℝ) := by
    unfold Int.fract
    rw [hfloor]
    push_cast
    ring
  have hhalf : ((1:ℝ)/2) = (((1/2 : ℚ)) : ℝ) := by norm_num
  have h1 : (Int.fract ((q : ℝ)) < 1/2) ↔ (Int.fract q < 1/2) := by
    rw [hfract, hhalf]
    exact Rat.cast_lt
  have h2 : (1/2 < Int.fract ((q : ℝ))) ↔ (1/2 < Int.fract q) := by
    rw [hfract, hhalf]
    exact Rat.cast_lt
  unfold rheR rhe
  rw [hfloor]
  by_cases hc1 : Int.fract q < 1/2
  · rw [if_pos (h1.mpr hc1), if_pos hc1]
  · rw [if_neg (fun h => hc1 (h1.mp h)), if_neg hc1]
    by_cases hc2 : 1/2 < Int.fract q
    · rw [if_pos (h2.mpr hc2), if_pos hc2]
    · rw [if_neg (fun h => hc2 (h2.mp h)), if_neg hc2]

lemma rhe_intCast (n : ℤ) : rhe ((n : ℚ)) = n := by
  unfold rhe
  rw [Int.fract_intCast, Int.floor_intCast]
  norm_num

lemma rhe_eq_low {x : ℚ} {n : ℤ} (h1 : (n : ℚ) ≤ x) (h2 : x < (n : ℚ) + 1/2) :
    rhe x = n := by
  have hfl : ⌊x⌋ = n := by
    rw [Int.floor_eq_iff]
    constructor
    · exact h1
    · linarith
  have hfr : Int.fract x < 1/2 := by
    unfold Int.fract
    rw [hfl]
    linarith
  unfold rhe
  rw [if_pos hfr, hfl]

lemma rhe_eq_high {x : ℚ} {n : ℤ} (h1 : (n : ℚ) + 1/2 < x) (h2 : x < (n : ℚ) + 1) :
    rhe x = n + 1 := by
  have hfl : ⌊x⌋ = n := by
    rw [Int.floor_eq_iff]
    constructor
    · linarith
    · linarith
  have hfr1 : ¬ Int.fract x < 1/2 := by
    unfold Int.fract
    rw [hfl]
    intro h
    linarith
  have hfr2 : 1/2 < Int.fract x := by
    unfold Int.fract
    rw [hfl]
    linarith
  unfold rhe
  rw [if_neg hfr1, if_pos hfr2, hfl]

lemma roundToR_ratCast (n : ℕ) (q : ℚ) :
    roundToR n (q : ℝ) = ((roundTo n q : ℚ) : ℝ) := by
  unfold roundToR roundTo
  have h : (q : ℝ) * 10 ^ n = (((q * 10 ^ n : ℚ)) : ℝ) := by push_cast; ring
  rw [h, rheR_ratCast]
  push_cast
  ring

lemma rheR_intCast (k : ℤ) : rheR ((k : ℝ)) = k := by
  unfold rheR
  rw [Int.fract_intCast, Int.floor_intCast]
  norm_num

lemma roundToR_zero (n : ℕ) : roundToR n 0 = 0 := by
  unfold roundToR
  rw [zero_mul, show ((0:ℝ)) = (((0:ℤ)) : ℝ) by norm_num, rheR_intCast]
  norm_num

lemma roundTo_intCast (n : ℕ) (k : ℤ) : roundTo n ((k : ℚ)) = k := by
  unfold roundTo
  rw [show ((k:ℚ) * 10 ^ n) = (((k * 10 ^ n : ℤ)) : ℚ) by push_cast; ring, rhe_intCast]
  push_cast
  rw [mul_div_assoc, div_self (by positivity), mul_one]

lemma roundToR_intCast (n : ℕ) (k : ℤ) : roundToR n ((k : ℝ)) = k := by
  unfold roundToR
  rw [show ((k:ℝ) * 10 ^ n) = (((k * 10 ^ n : ℤ)) : ℝ) by push_cast; ring, rheR_intCast]
  push_cast
  rw [mul_div_assoc, div_self (by positivity), mul_one]

lemma seq_scenario_arith : 60 * min 1 ((6:ℚ)/7) + 40 * (1 - (3:ℚ)/30) = 612/7 := by
  rw [min_eq_right (by norm_num : ((6:ℚ)/7) ≤ 1)]
  norm_num

lemma roundTo_612_div_7 : roundTo 2 ((612:ℚ)/7) = 8743/100 := by
  unfold roundTo
  have h : rhe ((612:ℚ)/7 * 10 ^ 2) = 8743 := by
    rw [show ((612:ℚ)/7 * 10 ^ 2) = (61200/7 : ℚ) by norm_num]
    have := @rhe_eq_high (61200/7) 8742 (by norm_num) (by norm_num)
    rw [this]
    norm_num
  rw [h]
  norm_num

lemma erf_zero : erf 0 = 0 := by
  unfold erf
  rw [intervalIntegral.integral_same]
  ring

lemma erf_strictMono : StrictMono erf := by
  intro a b hab
  have hcont : Continuous fun t : ℝ => Real.exp (-t ^ 2) :=
    Real.continuous_exp.comp (continuous_pow 2).neg
  have hint : ∀ u v : ℝ,
      IntervalIntegrable (fun t : ℝ => Real.exp (-t ^ 2)) MeasureTheory.volume u v :=
    fun u v => hcont.intervalIntegrable u v
  have hsplit : (∫ t in (0:ℝ)..a, Real.exp (-t ^ 2)) + (∫ t in a..b, Real.exp (-t ^ 2)) =
      ∫ t in (0:ℝ)..b, Real.exp (-t ^ 2) :=
    intervalIntegral.integral_add_adjacent_intervals (hint 0 a) (hint a b)
  have hpos : 0 < ∫ t in a..b, Real.exp (-t ^ 2) :=
    intervalIntegral.intervalIntegral_pos_of_pos (hint a b) (fun x => Real.exp_pos _) hab
  have hc : 0 < 2 / Real.sqrt Real.pi := by positivity
  unfold erf
  have hlt : (∫ t in (0:ℝ)..a, Real.exp (-t ^ 2)) < ∫ t in (0:ℝ)..b, Real.exp (-t ^ 2) := by
    linarith
  exact mul_lt_mul_of_pos_left hlt hc

lemma percentile_of_z_zero : percentile_of_z 0 = 50 := by
  unfold percentile_of_z
  rw [zero_div, erf_zero]
  norm_num

/-- C1: the claim says every output of the crop and sequence normalizers lies
in [0,100] for non-negative inputs.  The code violates this (its own docstring
promises 0-100): with distractions exceeding total_crops_presented the
unclamped distraction component drives the crop score to -15.0. -/
theorem C1_crop_normalizer_escapes_range :
    compute_crop_attention_score 0 0 [("t1", 500)] 2 1 none = -15 ∧
    compute_crop_attention_score 0 0 [("t1", 500)] 2 1 none < 0 := by
  have h : compute_crop_attention_score 0 0 [("t1", 500)] 2 1 none = -15 := by
    unfold compute_crop_attention_score
    norm_num
    rw [show ((-15:ℝ)) = (((-15:ℤ)) : ℝ) by norm_num, roundToR_intCast]
  refine ⟨h, ?_⟩
  rw [h]
  norm_num

/-- C2 counterexample: with both scores present (crop 100, sequence 0) the code
returns 60.0, not the 50.0 the claimed 0.5/0.5 weighting would give. -/
theorem C2_counterexample_equal_weights :
    compute_overall_attention_score (some 100) (some 0) = some 60 ∧
    (0.5 * (100:ℝ) + 0.5 * 0 = 50) ∧ (60:ℝ) ≠ 50 := by
  refine ⟨?_, by norm_num, by norm_num⟩
  show some (roundToR 2 (0.6 * 100 + 0.4 * 0)) = some 60
  rw [show (0.6 * (100:ℝ) + 0.4 * 0) = (((60:ℤ)):ℝ) by norm_num, roundToR_intCast]
  norm_num

/-- C2 (amended): when both scores are present the overall attention score is
round(0.6 * crop + 0.4 * sequence, 2); with exactly one present it is that
score rounded to 2 decimals; with neither it is None. -/
theorem C2_overall_attention_weights (c s : ℝ) :
    compute_overall_attention_score (some c) (some s) =
      some (roundToR 2 (0.6 * c + 0.4 * s)) ∧
    compute_overall_attention_score (some c) none = some (roundToR 2 c) ∧
    compute_overall_attention_score none (some s) = some (roundToR 2 s) ∧
    compute_overall_attention_score none none = none :=
  ⟨rfl, rfl, rfl, rfl⟩

/-- C3: the percentile computed from z-score 0 is exactly 50, and the
percentile function 100 * 0.5 * (1 + erf(z / sqrt 2)) is strictly increasing
in z. -/
theorem C3_percentile_at_zero_and_strict_mono :
    percentile_of_z 0 = 50 ∧
    ∀ z1 z2 : ℝ, z1 < z2 → percentile_of_z z1 < percentile_of_z z2 := by
  constructor
  · exact percentile_of_z_zero
  · intro z1 z2 h
    have hdiv : z1 / Real.sqrt 2 < z2 / Real.sqrt 2 := by
      have hs : (0:ℝ) < Real.sqrt 2 := Real.sqrt_pos.mpr (by norm_num)
      gcongr
    have := erf_strictMono hdiv
    unfold percentile_of_z
    linarith

/-- C3 witness at z1 = 0, z2 = 1. -/
theorem C3_percentile_witness :
    percentile_of_z 0 = 50 ∧ percentile_of_z 0 < percentile_of_z 1 :=
  ⟨C3_percentile_at_zero_and_strict_mono.1,
   C3_percentile_at_zero_and_strict_mono.2 0 1 zero_lt_one⟩

/-- C4: for every reference with positive standard deviation, comparing a
score equal to the reference mean yields z_score 0 and classification
"Average". -/
theorem C4_mean_score_roundtrip (mean std : ℝ) (h : 0 < std) :
    (compare_to_normative_data mean mean std).z_score = 0 ∧
    (compare_to_normative_data mean mean std).classification = "Average" := by
  have hz : (if 0 < std then (mean - mean) / std else 0) = 0 := by
    rw [if_pos h, sub_self, zero_div]
  unfold compare_to_normative_data
  rw [hz]
  simp only [percentile_of_z_zero]
  norm_num [roundToR_zero]

/-- C4 witness at mean 70, std 1. -/
theorem C4_mean_score_roundtrip_witness :
    (0:ℝ) < 1 ∧ (compare_to_normative_data 70 70 1).z_score = 0 ∧
    (compare_to_normative_data 70 70 1).classification = "Average" :=
  ⟨zero_lt_one, (C4_mean_score_roundtrip 70 1 zero_lt_one).1,
   (C4_mean_score_roundtrip 70 1 zero_lt_one).2⟩

/-- C5: the executive aggregator fails when all three domain scores are absent
(the ValueError the spec names InsufficientInputError) and succeeds whenever at
least one is present. -/
theorem C5_executive_requires_one_score :
    (compute_executive_function_score none none none =
      .error "At least one score must be provided to compute executive function.") ∧
    ∀ m i a : Option ℚ, (m ≠ none ∨ i ≠ none ∨ a ≠ none) →
      ∃ r, compute_executive_function_score m i a = .ok r := by
  constructor
  · rfl
  · intro m i a h
    cases m <;> cases i <;> cases a
    · rcases h with h | h | h <;> exact absurd rfl h
    all_goals exact ⟨_, rfl⟩

/-- C5 witness: a single memory score of 80 succeeds. -/
theorem C5_executive_witness :
    (some (80:ℚ) ≠ none ∨ (none : Option ℚ) ≠ none ∨ (none : Option ℚ) ≠ none) ∧
    ∃ r, compute_executive_function_score (some 80) none none = .ok r :=
  ⟨Or.inl (Option.some_ne_none 80),
   C5_executive_requires_one_score.2 (some 80) none none
     (Or.inl (Option.some_ne_none 80))⟩

/-- C6: sequence_length 6, expected_max_sequence 6, commission_errors 3,
total_sequence_elements 30, no retention times, age "11-13": the age table
overrides the expected max to 7, the score is 60*(6/7) + 40*(1 - 3/30), and it
rounds to 87.43. -/
theorem C6_sequence_scenario_87_43 :
    compute_sequence_attention_score 6 6 3 30 none (some "11-13") =
      .ok (roundTo 2 (60 * min 1 ((6:ℚ)/7) + 40 * (1 - (3:ℚ)/30))) ∧
    roundTo 2 (60 * min 1 ((6:ℚ)/7) + 40 * (1 - (3:ℚ)/30)) = 8743/100 := by
  constructor
  · simp [compute_sequence_attention_score]
  · rw [seq_scenario_arith, roundTo_612_div_7]

/-- C7: overall attention of (None, None) is None, and a single present score
is returned rounded to 2 decimals and otherwise unchanged. -/
theorem C7_overall_attention_none_and_single :
    compute_overall_attention_score none none = none ∧
    ∀ s : ℝ, compute_overall_attention_score (some s) none = some (roundToR 2 s) ∧
      compute_overall_attention_score none (some s) = some (roundToR 2 s) :=
  ⟨rfl, fun _ => ⟨rfl, rfl⟩⟩

/-- C8: zero-trial inputs do return 0.0 as claimed (first three conjuncts),
but the no-exception half of the claim fails: a valid input whose retention
times average to 0 hits the unguarded division expected_retention /
avg_retention and raises ZeroDivisionError (last conjunct). -/
theorem C8_zero_trials_and_zero_denominator :
    (∀ ci oe d t age, compute_crop_attention_score ci oe [] d t age = 0) ∧
    (∀ ci oe rts d age, compute_crop_attention_score ci oe rts d 0 age = 0) ∧
    (∀ sl ems ce rt age, compute_sequence_attention_score sl ems ce 0 rt age = .ok 0) ∧
    compute_sequence_attention_score 1 1 0 1 (some [0]) none =
      .error "ZeroDivisionError" := by
  refine ⟨?_, ?_, ?_, ?_⟩
  · intro ci oe d t age
    simp [compute_crop_attention_score]
  · intro ci oe rts d age
    simp [compute_crop_attention_score]
  · intro sl ems ce rt age
    simp [compute_sequence_attention_score]
  · simp [compute_sequence_attention_score]

/-- C9: the memory scorer given only matching-cards data (no sequence data)
reports data_completeness 0.5 and components with a visual_memory entry and no
working_memory entry. -/
theorem C9_memory_matching_only
    (correct_matches incorrect_matches matches_attempted : ℕ)
    (time_per_match : List ℝ) (age_group : Option String)
    (h : 0 < matches_attempted) :
    (compute_memory_score 0 0 0 [] 0 correct_matches incorrect_matches
      matches_attempted time_per_match age_group).data_completeness = 1/2 ∧
    (compute_memory_score 0 0 0 [] 0 correct_matches incorrect_matches
      matches_attempted time_per_match age_group).components.visual_memory.isSome = true ∧
    (compute_memory_score 0 0 0 [] 0 correct_matches incorrect_matches
      matches_attempted time_per_match age_group).components.working_memory = none := by
  unfold compute_memory_score
  simp [h]

/-- C9 witness: 12 correct of 15 attempted matches, no timing data. -/
theorem C9_memory_matching_only_witness :
    0 < 15 ∧
    ((compute_memory_score 0 0 0 [] 0 12 3 15 [] none).data_completeness = 1/2 ∧
    (compute_memory_score 0 0 0 [] 0 12 3 15 [] none).components.visual_memory.isSome = true ∧
    (compute_memory_score 0 0 0 [] 0 12 3 15 [] none).components.working_memory = none) :=
  ⟨by decide, C9_memory_matching_only 12 3 15 [] none (by decide)⟩

/-- C10: a session with sequence metrics but no crop metrics passes crop score
0 (not None) to the overall combiner, so the persisted overall attention score
is round(0.6*0 + 0.4*sequence_score, 2), not the sequence score alone. -/
theorem C10_missing_crop_contributes_zero
    (s : SequenceMemoryMetricsRow) (age_group : Option String) (q : ℚ)
    (h : compute_sequence_attention_score s.sequence_length s.total_sequence_elements
      s.commission_errors s.total_sequence_elements (some s.retention_times) age_group =
        .ok q) :
    attention_scores_for_session none (some s) age_group =
      .ok (0, (q : ℝ), some (roundToR 2 (0.6 * 0 + 0.4 * (q : ℝ)))) := by
  unfold attention_scores_for_session
  simp [h, compute_overall_attention_score]

/-- C10 witness: the scenario row (length 6, 3 commission errors, 30 elements,
age "11-13") yields sequence score 87.43 and overall round(0.4 * 87.43, 2). -/
theorem C10_missing_crop_witness :
    compute_sequence_attention_score 6 30 3 30 (some []) (some "11-13") =
      .ok (8743/100) ∧
    attention_scores_for_session none (some ⟨6, 3, 8, [], 30⟩) (some "11-13") =
      .ok (0, ((8743/100 : ℚ) : ℝ),
        some (roundToR 2 (0.6 * 0 + 0.4 * ((8743/100 : ℚ) : ℝ)))) := by
  have h : compute_sequence_attention_score 6 30 3 30 (some []) (some "11-13") =
      .ok (8743/100) := by
    simp [compute_sequence_attention_score, seq_scenario_arith, roundTo_612_div_7]
  exact ⟨h, C10_missing_crop_contributes_zero ⟨6, 3, 8, [], 30⟩ (some "11-13") (8743/100) h⟩

end NuraReport
